import Mathlib

/-!
Shallow embedding of src/app.py (flask-yf-quotes): a Flask service that
fetches the most recent daily bars for a ticker from Yahoo Finance and
republishes a normalized quote JSON.

Modelling choices:
* Python floats are modelled as exact rationals; Python ints as ℤ.
* pandas timestamps are modelled as an abstract wall-clock reading plus an
  optional fixed-offset zone; only the presence of a zone and the UTC zone
  are exercised by the code.
* The network side of yfinance is abstracted: a provider interaction either
  yields the list of bars that ticker.history (period 2d) returned, oldest
  bar first, or raises some non-ValueError exception with a message.
* Python round() and f-string .2f formatting round half to even.
-/

/-- A fixed-offset time zone: UTC, or a fixed offset in minutes. -/
inductive Tz where
  | utc : Tz
  | offset : ℤ → Tz
  deriving DecidableEq

/-- A Python datetime-like value: an abstract wall-clock reading plus an
optional zone (tzinfo); tz = none models a naive datetime. -/
structure PyDatetime where
  wall : ℕ
  tz : Option Tz
  deriving DecidableEq

/-- Two-digit zero-padded rendering of an hour or minute count. -/
def two (n : ℕ) : String := if n < 10 then "0" ++ toString n else toString n

/-- The UTC-offset suffix that datetime.isoformat emits for a zone. -/
def tzSuffix : Tz → String
  | Tz.utc => "+00:00"
  | Tz.offset m => (if m < 0 then "-" else "+") ++ two (m.natAbs / 60) ++ ":" ++ two (m.natAbs % 60)

/-- Model of datetime.isoformat: the wall-clock text, followed by the
UTC-offset suffix exactly when the datetime is timezone-aware. -/
def isoformat (t : PyDatetime) : String :=
  toString t.wall ++ (match t.tz with
    | some z => tzSuffix z
    | none => "")

/-- One provider bar (one row of the history frame): close price, volume
and timestamp. -/
structure Bar where
  close : ℚ
  volume : ℚ
  ts : PyDatetime
  deriving DecidableEq

/-- A JSON scalar as produced by the service. -/
inductive JVal where
  | str : String → JVal
  | num : ℚ → JVal
  | int : ℤ → JVal
  deriving DecidableEq

/-- Python float-to-int conversion: truncation toward zero. -/
def pyInt (q : ℚ) : ℤ := if q < 0 then -⌊-q⌋ else ⌊q⌋

/-- Round half to even to an integer, as Python round() and Python string
formatting round. -/
def rhe (q : ℚ) : ℤ :=
  if q - ⌊q⌋ < 1/2 then ⌊q⌋
  else if 1/2 < q - ⌊q⌋ then ⌊q⌋ + 1
  else if ⌊q⌋ % 2 = 0 then ⌊q⌋ else ⌊q⌋ + 1

/-- Python round(x, 4): round half to even at the fourth decimal. -/
def round4 (q : ℚ) : ℚ := (rhe (q * 10000) : ℚ) / 10000

/-- Rendering of a nonnegative count of hundredths as a 2-decimal string. -/
def cents (m : ℕ) : String :=
  toString (m / 100) ++ "." ++ (if m % 100 < 10 then "0" ++ toString (m % 100) else toString (m % 100))

/-- Python f-string .2f formatting of an exact value. -/
def fmt2 (q : ℚ) : String :=
  if q < 0 then "-" ++ cents (rhe (-q * 100)).toNat else cents (rhe (q * 100)).toNat

/-- Python str.upper, restricted to ASCII letters (ticker symbols are ASCII). -/
def pyUpper (s : String) : String := String.mk (s.data.map Char.toUpper)

/-- A single-quote character, used in the error messages of app.py. -/
def squote : String := String.singleton (Char.ofNat 39)

/-- Error message raised at src/app.py line 32. -/
def noDataMsg (symbol : String) : String :=
  "No price data available for symbol " ++ squote ++ symbol ++ squote ++ "."

/-- Error message raised at src/app.py line 42. -/
def zeroPrevMsg (symbol : String) : String :=
  "Previous close is zero for symbol " ++ squote ++ symbol ++ squote ++ "."

/-- Lines 37-38 of app.py: a naive timestamp is tagged with the UTC zone,
an aware one is kept unchanged. -/
def normTs (t : PyDatetime) : PyDatetime :=
  match t.tz with
  | none => PyDatetime.mk t.wall (some Tz.utc)
  | some _ => t

/-- The _fetch_quote body (app.py lines 24-44) applied to the history the
provider returned, oldest bar first.  iloc[-1] is the last list element and
iloc[-2] the one before it; raised ValueErrors become Except.error. -/
def _fetch_quote (symbol : String) (hist : List Bar) : Except String (ℚ × ℚ × PyDatetime × ℚ) :=
  match hist.reverse with
  | [] => Except.error (noDataMsg symbol)
  | b :: rest =>
      let last_close := b.close
      let prev_close := match rest with
        | [] => last_close
        | p :: _ => p.close
      let timestamp := normTs b.ts
      let volume := b.volume
      if prev_close = 0 then Except.error (zeroPrevMsg symbol)
      else Except.ok (last_close, prev_close, timestamp, volume)

/-- The _format_volume body (app.py lines 47-56). -/
def _format_volume (volume : ℚ) : String :=
  if 1000000000 ≤ |volume| then fmt2 (volume / 1000000000) ++ "B"
  else if 1000000 ≤ |volume| then fmt2 (volume / 1000000) ++ "M"
  else if 1000 ≤ |volume| then fmt2 (volume / 1000) ++ "K"
  else toString (pyInt volume)

/-- The _build_response body (app.py lines 59-84); now is the UTC wall
clock at build time, so datetime.now(timezone.utc) is the aware datetime
PyDatetime.mk now (some Tz.utc). -/
def _build_response (symbol : String) (hist : List Bar) (now : ℕ) : Except String (List (String × JVal)) :=
  let symbolU := pyUpper symbol
  match _fetch_quote symbolU hist with
  | Except.error e => Except.error e
  | Except.ok (last_price, prev_close, timestamp, volume) =>
      let change_percent := (last_price - prev_close) / prev_close * 100
      let server_time_utc := isoformat (PyDatetime.mk now (some Tz.utc))
      Except.ok [
        ("symbol", JVal.str symbolU),
        ("last_price", JVal.num (round4 last_price)),
        ("previous_close", JVal.num (round4 prev_close)),
        ("change_percent", JVal.num (round4 change_percent)),
        ("volume", JVal.int (pyInt volume)),
        ("volume_formatted", JVal.str (_format_volume volume)),
        ("timestamp", JVal.str (isoformat timestamp)),
        ("last_updated_utc", JVal.str server_time_utc)]

/-- Outcome of the provider interaction as seen by get_quote: either a
history (possibly empty), or a non-ValueError exception and its message. -/
inductive ProviderResult where
  | hist : List Bar → ProviderResult
  | failure : String → ProviderResult

/-- The get_quote handler (app.py lines 87-99): a ValueError becomes
status 404 with an error body, any other exception becomes status 502
with an error and details body, success is status 200 with the quote. -/
def get_quote (symbol : String) (pr : ProviderResult) (now : ℕ) : ℕ × List (String × JVal) :=
  match pr with
  | ProviderResult.failure details =>
      (502, [("error", JVal.str "Failed to reach Yahoo Finance"), ("details", JVal.str details)])
  | ProviderResult.hist bars =>
      match _build_response symbol bars now with
      | Except.error e => (404, [("error", JVal.str e)])
      | Except.ok data => (200, data)

/-- The previous close that lines 34-35 of app.py resolve, given the last
bar and the remaining earlier bars in most-recent-first order. -/
def prevClose (b : Bar) (rest : List Bar) : ℚ :=
  match rest with
  | [] => b.close
  | p :: _ => p.close

/-- The previous close resolved from a history, if any bar exists. -/
def resolvedPrev (hist : List Bar) : Option ℚ :=
  match hist.reverse with
  | [] => none
  | b :: rest => some (prevClose b rest)

/-- The response dictionary that _build_response assembles on success. -/
def mkData (sym : String) (last prev : ℚ) (t : PyDatetime) (vol : ℚ) (now : ℕ) : List (String × JVal) :=
  [("symbol", JVal.str sym),
   ("last_price", JVal.num (round4 last)),
   ("previous_close", JVal.num (round4 prev)),
   ("change_percent", JVal.num (round4 ((last - prev) / prev * 100))),
   ("volume", JVal.int (pyInt vol)),
   ("volume_formatted", JVal.str (_format_volume vol)),
   ("timestamp", JVal.str (isoformat t)),
   ("last_updated_utc", JVal.str (isoformat (PyDatetime.mk now (some Tz.utc))))]

lemma rhe_down (q : ℚ) (n : ℤ) (h1 : ⌊q⌋ = n) (h2 : q - n < 1/2) : rhe q = n := by
  rw [rhe, h1, if_pos h2]

lemma rhe_up (q : ℚ) (n : ℤ) (h1 : ⌊q⌋ = n) (h2 : 1/2 < q - n) : rhe q = n + 1 := by
  rw [rhe, h1, if_neg (by linarith), if_pos h2]

lemma round4_zero : round4 0 = 0 := by
  rw [round4, show (0:ℚ) * 10000 = 0 by norm_num, rhe_down 0 0 (by norm_num) (by norm_num)]
  norm_num

lemma fmt2_neg (q : ℚ) (h : q < 0) : fmt2 q = "-" ++ fmt2 (-q) := by
  rw [fmt2, if_pos h, fmt2, if_neg (by linarith)]

lemma normTs_aware (t : PyDatetime) : (normTs t).tz ≠ none := by
  cases h : t.tz with
  | none => simp [normTs, h]
  | some z => simp [normTs, h]

lemma fetch_nil (s : String) (hist : List Bar) (h : hist.reverse = []) :
    _fetch_quote s hist = Except.error (noDataMsg s) := by
  unfold _fetch_quote
  rw [h]

lemma fetch_cons (s : String) (hist : List Bar) (b : Bar) (rest : List Bar)
    (h : hist.reverse = b :: rest) :
    _fetch_quote s hist =
      if prevClose b rest = 0 then Except.error (zeroPrevMsg s)
      else Except.ok (b.close, prevClose b rest, normTs b.ts, b.volume) := by
  unfold _fetch_quote
  rw [h]
  cases rest <;> rfl

lemma build_nil (s : String) (bars : List Bar) (now : ℕ) (h : bars.reverse = []) :
    _build_response s bars now = Except.error (noDataMsg (pyUpper s)) := by
  simp only [_build_response]
  rw [fetch_nil (pyUpper s) bars h]

lemma build_zero (s : String) (bars : List Bar) (now : ℕ) (b : Bar) (rest : List Bar)
    (hrev : bars.reverse = b :: rest) (hz : prevClose b rest = 0) :
    _build_response s bars now = Except.error (zeroPrevMsg (pyUpper s)) := by
  simp only [_build_response]
  rw [fetch_cons (pyUpper s) bars b rest hrev, if_pos hz]

lemma build_ok (s : String) (bars : List Bar) (now : ℕ) (b : Bar) (rest : List Bar)
    (hrev : bars.reverse = b :: rest) (hz : ¬ prevClose b rest = 0) :
    _build_response s bars now =
      Except.ok (mkData (pyUpper s) b.close (prevClose b rest) (normTs b.ts) b.volume now) := by
  simp only [_build_response]
  rw [fetch_cons (pyUpper s) bars b rest hrev, if_neg hz]
  rfl

lemma build_ok_elim (s : String) (bars : List Bar) (now : ℕ) (data : List (String × JVal))
    (h : _build_response s bars now = Except.ok data) :
    ∃ b rest, bars.reverse = b :: rest ∧ ¬ prevClose b rest = 0 ∧
      data = mkData (pyUpper s) b.close (prevClose b rest) (normTs b.ts) b.volume now := by
  cases hrev : bars.reverse with
  | nil =>
      rw [build_nil s bars now hrev] at h
      exact absurd h (by simp)
  | cons b rest =>
      by_cases hz : prevClose b rest = 0
      · rw [build_zero s bars now b rest hrev hz] at h
        exact absurd h (by simp)
      · rw [build_ok s bars now b rest hrev hz] at h
        exact ⟨b, rest, rfl, hz, (Except.ok.inj h).symm⟩

lemma get_quote_ok (s : String) (bars : List Bar) (now : ℕ) (data : List (String × JVal))
    (h : _build_response s bars now = Except.ok data) :
    get_quote s (ProviderResult.hist bars) now = (200, data) := by
  simp only [get_quote]
  rw [h]

lemma get_quote_err (s : String) (bars : List Bar) (now : ℕ) (e : String)
    (h : _build_response s bars now = Except.error e) :
    get_quote s (ProviderResult.hist bars) now = (404, [("error", JVal.str e)]) := by
  simp only [get_quote]
  rw [h]

/-- Claim C1: for a two-bar fetch result with nonzero previous close, the
change_percent field of the built quote equals the percent-change formula
(last - prev) / prev * 100 rounded half-even at the fourth decimal. -/
theorem change_percent_rounded_formula (s : String) (b1 b2 : Bar) (now : ℕ)
    (h : b1.close ≠ 0) :
    ∃ data, _build_response s [b1, b2] now = Except.ok data ∧
      data.lookup "change_percent" =
        some (JVal.num (round4 ((b2.close - b1.close) / b1.close * 100))) := by
  refine ⟨_, build_ok s [b1, b2] now b2 [b1] rfl h, ?_⟩
  rfl

/-- Witness for C1 at a concrete two-bar history (100 then 110). -/
theorem change_percent_rounded_formula_witness :
    ∃ data, _build_response "aapl"
        [Bar.mk 100 500 (PyDatetime.mk 0 none), Bar.mk 110 500 (PyDatetime.mk 1 none)] 0 =
        Except.ok data ∧
      data.lookup "change_percent" =
        some (JVal.num (round4 (((110:ℚ) - 100) / 100 * 100))) :=
  change_percent_rounded_formula "aapl" (Bar.mk 100 500 (PyDatetime.mk 0 none))
    (Bar.mk 110 500 (PyDatetime.mk 1 none)) 0 (by norm_num)

/-- Claim C4: an empty provider history yields HTTP 404 with an error
message, and no quote is built. -/
theorem empty_history_404 (s : String) (now : ℕ) :
    get_quote s (ProviderResult.hist []) now =
      (404, [("error", JVal.str (noDataMsg (pyUpper s)))]) :=
  get_quote_err s [] now (noDataMsg (pyUpper s)) (build_nil s [] now rfl)

/-- Claim C5: a single-bar history that builds a quote yields a
previous_close field equal to the last_price field and a change_percent
field equal to 0. -/
theorem single_bar_prev_equals_last (s : String) (b : Bar) (now : ℕ)
    (data : List (String × JVal))
    (h : _build_response s [b] now = Except.ok data) :
    data.lookup "previous_close" = data.lookup "last_price" ∧
    data.lookup "change_percent" = some (JVal.num 0) := by
  obtain ⟨b', rest', hrev, hz, rfl⟩ := build_ok_elim s [b] now data h
  rw [List.reverse_singleton] at hrev
  injection hrev with h1 h2
  subst h1
  subst h2
  constructor
  · rfl
  · show some (JVal.num (round4 ((b.close - prevClose b []) / prevClose b [] * 100))) =
      some (JVal.num 0)
    rw [show prevClose b [] = b.close from rfl, sub_self, zero_div, zero_mul, round4_zero]

/-- Witness for C5 at a concrete one-bar history. -/
theorem single_bar_prev_equals_last_witness :
    ∃ data, _build_response "msft" [Bar.mk 100 500 (PyDatetime.mk 0 none)] 0 = Except.ok data ∧
      (data.lookup "previous_close" = data.lookup "last_price" ∧
       data.lookup "change_percent" = some (JVal.num 0)) := by
  have hb := build_ok "msft" [Bar.mk 100 500 (PyDatetime.mk 0 none)] 0
    (Bar.mk 100 500 (PyDatetime.mk 0 none)) [] rfl (by norm_num [prevClose])
  exact ⟨_, hb, single_bar_prev_equals_last "msft" (Bar.mk 100 500 (PyDatetime.mk 0 none)) 0 _ hb⟩

/-- Claim C6: the symbol field of a successful response is the uppercased
form of the input symbol. -/
theorem response_symbol_uppercase (s : String) (pr : ProviderResult) (now : ℕ)
    (data : List (String × JVal))
    (h : get_quote s pr now = (200, data)) :
    data.lookup "symbol" = some (JVal.str (pyUpper s)) := by
  cases pr with
  | failure d => simp [get_quote] at h
  | hist bars =>
      cases hb : _build_response s bars now with
      | error e =>
          rw [get_quote_err s bars now e hb] at h
          simp at h
      | ok d =>
          rw [get_quote_ok s bars now d hb] at h
          have hd : d = data := congrArg Prod.snd h
          subst hd
          obtain ⟨b, rest, hrev, hz, rfl⟩ := build_ok_elim s bars now _ hb
          rfl

/-- Witness for C6: the lowercase input aapl yields the symbol AAPL. -/
theorem response_symbol_uppercase_witness :
    ∃ data, get_quote "aapl" (ProviderResult.hist [Bar.mk 100 500 (PyDatetime.mk 0 none)]) 0 =
        (200, data) ∧
      data.lookup "symbol" = some (JVal.str "AAPL") := by
  have hb := build_ok "aapl" [Bar.mk 100 500 (PyDatetime.mk 0 none)] 0
    (Bar.mk 100 500 (PyDatetime.mk 0 none)) [] rfl (by norm_num [prevClose])
  have hq := get_quote_ok "aapl" [Bar.mk 100 500 (PyDatetime.mk 0 none)] 0 _ hb
  have hs := response_symbol_uppercase "aapl"
    (ProviderResult.hist [Bar.mk 100 500 (PyDatetime.mk 0 none)]) 0 _ hq
  refine ⟨_, hq, ?_⟩
  rw [hs]
  decide

/-- Claim C7: a ValueError maps to HTTP 404 with an error body, and any
other provider failure maps to HTTP 502 with an error and a details
string. -/
theorem error_status_mapping :
    (∀ (s d : String) (now : ℕ),
      get_quote s (ProviderResult.failure d) now =
        (502, [("error", JVal.str "Failed to reach Yahoo Finance"), ("details", JVal.str d)])) ∧
    (∀ (s : String) (bars : List Bar) (now : ℕ) (e : String),
      _build_response s bars now = Except.error e →
        get_quote s (ProviderResult.hist bars) now = (404, [("error", JVal.str e)])) :=
  ⟨fun _ _ _ => rfl, fun s bars now e h => get_quote_err s bars now e h⟩

/-- Witness for C7: a concrete upstream failure and a concrete ValueError. -/
theorem error_status_mapping_witness :
    get_quote "x" (ProviderResult.failure "boom") 0 =
      (502, [("error", JVal.str "Failed to reach Yahoo Finance"), ("details", JVal.str "boom")]) ∧
    get_quote "x" (ProviderResult.hist []) 0 =
      (404, [("error", JVal.str (noDataMsg (pyUpper "x")))]) :=
  ⟨error_status_mapping.1 "x" "boom" 0, error_status_mapping.2 "x" [] 0 _ (build_nil "x" [] 0 rfl)⟩

/-- Claim C3 (amended): a resolved previous close of exactly zero makes the
request fail with HTTP 404, and every successfully built quote comes from a
nonzero resolved previous close; the rounded previous_close field of the
response, however, can still display as 0. -/
theorem zero_prev_close_404 :
    (∀ (s : String) (bars : List Bar) (now : ℕ),
      resolvedPrev bars = some 0 →
        get_quote s (ProviderResult.hist bars) now =
          (404, [("error", JVal.str (zeroPrevMsg (pyUpper s)))])) ∧
    (∀ (s : String) (bars : List Bar) (now : ℕ) (data : List (String × JVal)),
      _build_response s bars now = Except.ok data → resolvedPrev bars ≠ some 0) := by
  constructor
  · intro s bars now h
    unfold resolvedPrev at h
    cases hrev : bars.reverse with
    | nil => rw [hrev] at h; exact absurd h (by simp)
    | cons b rest =>
        rw [hrev] at h
        exact get_quote_err s bars now _ (build_zero s bars now b rest hrev (Option.some.inj h))
  · intro s bars now data h hsome
    obtain ⟨b, rest, hrev, hz, _⟩ := build_ok_elim s bars now data h
    unfold resolvedPrev at hsome
    rw [hrev] at hsome
    exact hz (Option.some.inj hsome)

/-- Counterexample for C3 as stated: a history whose resolved previous
close is 1/25000 (nonzero) builds a quote successfully, yet the rounded
previous_close field of that quote is 0, so a successfully built quote
need not satisfy previous_close different from 0. -/
theorem rounded_prev_close_zero_cex :
    ∃ data, _build_response "a"
        [Bar.mk (1/25000) 500 (PyDatetime.mk 0 none), Bar.mk 1 500 (PyDatetime.mk 1 none)] 0 =
        Except.ok data ∧
      data.lookup "previous_close" = some (JVal.num 0) := by
  refine ⟨_, build_ok "a"
    [Bar.mk (1/25000) 500 (PyDatetime.mk 0 none), Bar.mk 1 500 (PyDatetime.mk 1 none)] 0
    (Bar.mk 1 500 (PyDatetime.mk 1 none)) [Bar.mk (1/25000) 500 (PyDatetime.mk 0 none)]
    rfl (by norm_num [prevClose]), ?_⟩
  show some (JVal.num (round4 (prevClose (Bar.mk 1 500 (PyDatetime.mk 1 none))
    [Bar.mk (1/25000) 500 (PyDatetime.mk 0 none)]))) = some (JVal.num 0)
  rw [show prevClose (Bar.mk 1 500 (PyDatetime.mk 1 none))
    [Bar.mk (1/25000) 500 (PyDatetime.mk 0 none)] = 1/25000 from rfl]
  rw [round4, show (1/25000 : ℚ) * 10000 = 2/5 by norm_num,
    rhe_down (2/5) 0 (by norm_num) (by norm_num)]
  norm_num

/-- Witness for C3: a concrete zero previous close yields 404. -/
theorem zero_prev_close_404_witness :
    get_quote "a" (ProviderResult.hist
      [Bar.mk 0 500 (PyDatetime.mk 0 none), Bar.mk 5 500 (PyDatetime.mk 1 none)]) 0 =
      (404, [("error", JVal.str (zeroPrevMsg (pyUpper "a")))]) :=
  zero_prev_close_404.1 "a"
    [Bar.mk 0 500 (PyDatetime.mk 0 none), Bar.mk 5 500 (PyDatetime.mk 1 none)] 0 rfl

/-- Claim C8: the timestamp in a fetch result is the last bar timestamp,
tagged with the UTC zone when it was naive and unchanged when it was
already timezone-aware. -/
theorem naive_timestamp_utc (s : String) (hist : List Bar) (b : Bar) (rest : List Bar)
    (out : ℚ × ℚ × PyDatetime × ℚ)
    (hrev : hist.reverse = b :: rest)
    (h : _fetch_quote s hist = Except.ok out) :
    (b.ts.tz = none → out.2.2.1 = PyDatetime.mk b.ts.wall (some Tz.utc)) ∧
    (∀ z, b.ts.tz = some z → out.2.2.1 = b.ts) := by
  rw [fetch_cons s hist b rest hrev] at h
  by_cases hz : prevClose b rest = 0
  · rw [if_pos hz] at h
    exact absurd h (by simp)
  · rw [if_neg hz] at h
    have hout : out = (b.close, prevClose b rest, normTs b.ts, b.volume) := (Except.ok.inj h).symm
    subst hout
    constructor
    · intro hn
      show normTs b.ts = PyDatetime.mk b.ts.wall (some Tz.utc)
      unfold normTs
      rw [hn]
    · intro z hs
      show normTs b.ts = b.ts
      unfold normTs
      rw [hs]

/-- Witness for C8: a concrete naive timestamp is tagged with UTC. -/
theorem naive_timestamp_utc_witness :
    ∃ out, _fetch_quote "A" [Bar.mk 100 500 (PyDatetime.mk 7 none)] = Except.ok out ∧
      out.2.2.1 = PyDatetime.mk 7 (some Tz.utc) := by
  have h : _fetch_quote "A" [Bar.mk 100 500 (PyDatetime.mk 7 none)] =
      Except.ok ((Bar.mk 100 500 (PyDatetime.mk 7 none)).close,
        prevClose (Bar.mk 100 500 (PyDatetime.mk 7 none)) [],
        normTs (Bar.mk 100 500 (PyDatetime.mk 7 none)).ts,
        (Bar.mk 100 500 (PyDatetime.mk 7 none)).volume) :=
    (fetch_cons "A" [Bar.mk 100 500 (PyDatetime.mk 7 none)]
      (Bar.mk 100 500 (PyDatetime.mk 7 none)) [] rfl).trans (if_neg (by norm_num [prevClose]))
  exact ⟨_, h, (naive_timestamp_utc "A" [Bar.mk 100 500 (PyDatetime.mk 7 none)]
    (Bar.mk 100 500 (PyDatetime.mk 7 none)) [] _ rfl h).1 rfl⟩

/-- Counterexample for C9 as stated: a successful response carries the keys
timestamp and last_updated_utc, and no key observation_timestamp or
fetched_at. -/
theorem response_fields_cex :
    ∃ data, _build_response "a" [Bar.mk 100 500 (PyDatetime.mk 0 none)] 0 = Except.ok data ∧
      List.map Prod.fst data =
        ["symbol", "last_price", "previous_close", "change_percent", "volume",
         "volume_formatted", "timestamp", "last_updated_utc"] ∧
      ¬ "observation_timestamp" ∈ List.map Prod.fst data ∧
      ¬ "fetched_at" ∈ List.map Prod.fst data := by
  refine ⟨_, build_ok "a" [Bar.mk 100 500 (PyDatetime.mk 0 none)] 0
    (Bar.mk 100 500 (PyDatetime.mk 0 none)) [] rfl (by norm_num [prevClose]), rfl, ?_, ?_⟩
  · decide
  · decide

/-- Claim C9 (amended): every successful response has exactly the keys
symbol, last_price, previous_close, change_percent, volume,
volume_formatted, timestamp and last_updated_utc, in this order, and the
two datetime values are isoformat renderings of timezone-aware datetimes,
so both carry a UTC-offset suffix. -/
theorem response_fields (s : String) (bars : List Bar) (now : ℕ)
    (data : List (String × JVal))
    (h : _build_response s bars now = Except.ok data) :
    List.map Prod.fst data =
      ["symbol", "last_price", "previous_close", "change_percent", "volume",
       "volume_formatted", "timestamp", "last_updated_utc"] ∧
    (∃ t : PyDatetime, t.tz ≠ none ∧ data.lookup "timestamp" = some (JVal.str (isoformat t))) ∧
    data.lookup "last_updated_utc" =
      some (JVal.str (isoformat (PyDatetime.mk now (some Tz.utc)))) := by
  obtain ⟨b, rest, hrev, hz, rfl⟩ := build_ok_elim s bars now data h
  exact ⟨rfl, ⟨normTs b.ts, normTs_aware b.ts, rfl⟩, rfl⟩

/-- Witness for C9 at a concrete history. -/
theorem response_fields_witness :
    ∃ data, _build_response "ibm" [Bar.mk 100 500 (PyDatetime.mk 3 none)] 0 = Except.ok data ∧
      (List.map Prod.fst data =
        ["symbol", "last_price", "previous_close", "change_percent", "volume",
         "volume_formatted", "timestamp", "last_updated_utc"] ∧
      (∃ t : PyDatetime, t.tz ≠ none ∧ data.lookup "timestamp" = some (JVal.str (isoformat t))) ∧
      data.lookup "last_updated_utc" =
        some (JVal.str (isoformat (PyDatetime.mk 0 (some Tz.utc))))) := by
  have hb := build_ok "ibm" [Bar.mk 100 500 (PyDatetime.mk 3 none)] 0
    (Bar.mk 100 500 (PyDatetime.mk 3 none)) [] rfl (by norm_num [prevClose])
  exact ⟨_, hb, response_fields "ibm" [Bar.mk 100 500 (PyDatetime.mk 3 none)] 0 _ hb⟩

/-- Claim C2 (amended): _format_volume thresholds at 1e9, 1e6 and 1e3 on
the absolute value, dividing by the threshold and formatting with two
decimals plus suffix B, M or K, and below 1000 emits the truncated integer
with no suffix; 500, 1500, 2500000, 3000000000 and 1000000 map to "500",
"1.50K", "2.50M", "3.00B" and "1.00M", while 999999 is at least 1000 and
therefore formats as "1000.00K". -/
theorem format_volume_thresholds :
    (∀ v : ℚ,
      (1000000000 ≤ |v| → _format_volume v = fmt2 (v / 1000000000) ++ "B") ∧
      (¬ 1000000000 ≤ |v| → 1000000 ≤ |v| → _format_volume v = fmt2 (v / 1000000) ++ "M") ∧
      (¬ 1000000 ≤ |v| → 1000 ≤ |v| → _format_volume v = fmt2 (v / 1000) ++ "K") ∧
      (¬ 1000 ≤ |v| → _format_volume v = toString (pyInt v))) ∧
    _format_volume 500 = "500" ∧
    _format_volume 1500 = "1.50K" ∧
    _format_volume 2500000 = "2.50M" ∧
    _format_volume 3000000000 = "3.00B" ∧
    _format_volume 1000000 = "1.00M" ∧
    _format_volume 999999 = "1000.00K" := by
  constructor
  · intro v
    refine ⟨fun h1 => ?_, fun h1 h2 => ?_, fun h2 h3 => ?_, fun h3 => ?_⟩
    · unfold _format_volume
      rw [if_pos h1]
    · unfold _format_volume
      rw [if_neg h1, if_pos h2]
    · unfold _format_volume
      rw [if_neg (fun hc => h2 (by linarith)), if_neg h2, if_pos h3]
    · unfold _format_volume
      rw [if_neg (fun hc => h3 (by linarith)), if_neg (fun hc => h3 (by linarith)), if_neg h3]
  · refine ⟨?_, ?_, ?_, ?_, ?_, ?_⟩
    · unfold _format_volume pyInt
      rw [if_neg (by norm_num), if_neg (by norm_num), if_neg (by norm_num),
        if_neg (by norm_num), show ⌊(500:ℚ)⌋ = 500 by norm_num]
      decide
    · unfold _format_volume
      rw [if_neg (by norm_num), if_neg (by norm_num), if_pos (by norm_num)]
      unfold fmt2
      rw [if_neg (by norm_num),
        rhe_down ((1500:ℚ)/1000 * 100) 150 (by norm_num) (by norm_num)]
      decide
    · unfold _format_volume
      rw [if_neg (by norm_num), if_pos (by norm_num)]
      unfold fmt2
      rw [if_neg (by norm_num),
        rhe_down ((2500000:ℚ)/1000000 * 100) 250 (by norm_num) (by norm_num)]
      decide
    · unfold _format_volume
      rw [if_pos (by norm_num)]
      unfold fmt2
      rw [if_neg (by norm_num),
        rhe_down ((3000000000:ℚ)/1000000000 * 100) 300 (by norm_num) (by norm_num)]
      decide
    · unfold _format_volume
      rw [if_neg (by norm_num), if_pos (by norm_num)]
      unfold fmt2
      rw [if_neg (by norm_num),
        rhe_down ((1000000:ℚ)/1000000 * 100) 100 (by norm_num) (by norm_num)]
      decide
    · unfold _format_volume
      rw [if_neg (by norm_num), if_neg (by norm_num), if_pos (by norm_num)]
      unfold fmt2
      rw [if_neg (by norm_num),
        rhe_up ((999999:ℚ)/1000 * 100) 99999 (by norm_num) (by norm_num)]
      decide

/-- Counterexample for C2 as stated: 999999 is not below 1000, so
_format_volume renders it as "1000.00K", not "999999". -/
theorem format_volume_999999_cex :
    _format_volume 999999 = "1000.00K" ∧ _format_volume 999999 ≠ "999999" := by
  have h : _format_volume 999999 = "1000.00K" := by
    unfold _format_volume
    rw [if_neg (by norm_num), if_neg (by norm_num), if_pos (by norm_num)]
    unfold fmt2
    rw [if_neg (by norm_num),
      rhe_up ((999999:ℚ)/1000 * 100) 99999 (by norm_num) (by norm_num)]
    decide
  exact ⟨h, by rw [h]; decide⟩

/-- Witness for C2: the threshold clause instantiated at 1500. -/
theorem format_volume_thresholds_witness :
    _format_volume 1500 = fmt2 ((1500:ℚ) / 1000) ++ "K" :=
  (format_volume_thresholds.1 1500).2.2.1 (by norm_num) (by norm_num)

/-- Claim C10: _format_volume selects its branch by absolute value, so a
negative volume gets the suffix of its magnitude with the sign preserved,
and a negative volume of magnitude below 1000 is truncated toward zero,
which for a negative value is its ceiling. -/
theorem format_volume_sign_magnitude :
    (∀ v : ℚ, v < 0 →
      (1000000000 ≤ |v| → _format_volume v = "-" ++ (fmt2 (|v| / 1000000000) ++ "B")) ∧
      (¬ 1000000000 ≤ |v| → 1000000 ≤ |v| →
        _format_volume v = "-" ++ (fmt2 (|v| / 1000000) ++ "M")) ∧
      (¬ 1000000 ≤ |v| → 1000 ≤ |v| → _format_volume v = "-" ++ (fmt2 (|v| / 1000) ++ "K")) ∧
      (¬ 1000 ≤ |v| → _format_volume v = toString ⌈v⌉)) ∧
    _format_volume (-2500000) = "-2.50M" ∧
    _format_volume (-(9999/10)) = "-999" := by
  constructor
  · intro v hv
    have habs : |v| = -v := abs_of_neg hv
    refine ⟨fun h1 => ?_, fun h1 h2 => ?_, fun h2 h3 => ?_, fun h3 => ?_⟩
    · unfold _format_volume
      rw [if_pos h1, fmt2_neg (v / 1000000000) (div_neg_of_neg_of_pos hv (by norm_num)),
        show -(v / 1000000000) = |v| / 1000000000 by rw [habs]; ring,
        String.append_assoc]
    · unfold _format_volume
      rw [if_neg h1, if_pos h2, fmt2_neg (v / 1000000) (div_neg_of_neg_of_pos hv (by norm_num)),
        show -(v / 1000000) = |v| / 1000000 by rw [habs]; ring,
        String.append_assoc]
    · unfold _format_volume
      rw [if_neg (fun hc => h2 (by linarith)), if_neg h2, if_pos h3,
        fmt2_neg (v / 1000) (div_neg_of_neg_of_pos hv (by norm_num)),
        show -(v / 1000) = |v| / 1000 by rw [habs]; ring,
        String.append_assoc]
    · unfold _format_volume pyInt
      rw [if_neg (fun hc => h3 (by linarith)), if_neg (fun hc => h3 (by linarith)), if_neg h3,
        if_pos hv, Int.floor_neg, neg_neg]
  · constructor
    · unfold _format_volume
      rw [if_neg (by norm_num), if_pos (by norm_num)]
      unfold fmt2
      rw [if_pos (by norm_num),
        rhe_down (-((-2500000:ℚ) / 1000000) * 100) 250 (by norm_num) (by norm_num)]
      decide
    · have h999 : |(-(9999/10) : ℚ)| = 9999/10 :=
        (abs_neg ((9999:ℚ)/10)).trans (abs_of_pos (by norm_num))
      unfold _format_volume pyInt
      rw [if_neg (by rw [h999]; norm_num), if_neg (by rw [h999]; norm_num),
        if_neg (by rw [h999]; norm_num), if_pos (by norm_num),
        show ⌊-(-((9999:ℚ)/10))⌋ = 999 by norm_num]
      decide

/-- Witness for C10: the magnitude clause instantiated at -2500000. -/
theorem format_volume_sign_magnitude_witness :
    _format_volume (-2500000) = "-" ++ (fmt2 (|(-2500000 : ℚ)| / 1000000) ++ "M") :=
  (format_volume_sign_magnitude.1 (-2500000) (by norm_num)).2.1 (by norm_num) (by norm_num)
